import Mathlib

/-!
Verification of the pg_extism plugin bridge (src/src/lib.rs).

The development shallowly embeds the bridge's pure core — the contract
types, the SQL text synthesizer `generate_dynamic_function`, the type
mapping `type_to_sql`, and the manifest builder inside `new_plugin` — and
the control flow of the two entry points `extism_call` and
`extism_define`.  External collaborators (the extism WASM runtime,
serde_json, UTF-8 decoding) are abstracted as a `SandboxRuntime` record of
fallible functions; pgx `error!` failures and Rust `unwrap` panics are
kept apart in the `Outcome` type.  `BTreeMap<String, Type>` is embedded as
an association list whose key order (ascending byte-wise lexicographic,
i.e. `a.data < b.data` on the embedded strings) is carried as a hypothesis
where a theorem needs it.
-/

/-- Embeds the Rust `enum Type` of src/src/lib.rs (the plugin-contract
value-type tags).  Named `ValueType` because `Type` is reserved. -/
inductive ValueType
  | String
  | Number
  | Json
  | StringArray
  | NumberArray
  | JsonArray
deriving DecidableEq

/-- Embeds `struct PluginMetadata`.  The Rust field `parameters` is a
`BTreeMap<String, Type>`; it is embedded as the association list produced
by iterating the map, so its order is ascending byte-wise lexicographic in
the key and its keys are distinct — theorems that need those facts take
them as hypotheses. -/
structure PluginMetadata where
  entry_point : String
  parameters : List (String × ValueType)
  return_type : ValueType
  return_field : String

/-- Embeds `fn type_to_sql`. -/
def type_to_sql : ValueType → String
  | .Number => "NUMERIC"
  | .String => "TEXT"
  | .StringArray => "TEXT[]"
  | .NumberArray => "NUMERIC[]"
  | .Json => "JSON"
  | .JsonArray => "JSON[]"

/-- The `params_sql` vector built by the first loop of
`generate_dynamic_function` (before the `reverse()` call): one
`"{name} {type}"` entry per parameter, in map iteration order. -/
def params_sql (metadata : PluginMetadata) : List String :=
  metadata.parameters.map (fun p => p.1 ++ " " ++ type_to_sql p.2)

/-- The `params` vector built by the second loop of
`generate_dynamic_function`: one `"\t'{name}', {name}"` entry (a
`json_build_object` key/value pair) per parameter, in map iteration
order. -/
def json_params (metadata : PluginMetadata) : List String :=
  metadata.parameters.map (fun p => "\t'" ++ p.1 ++ "', " ++ p.1)

/-- Embeds `fn generate_dynamic_function`: the pieces below are the exact
`format!`/`push_str` pieces of the source, concatenated in source order;
the parameter list is reversed before joining, as in the source. -/
def generate_dynamic_function (path name : String) (metadata : PluginMetadata) : String :=
  "CREATE OR REPLACE FUNCTION " ++ name ++ "("
  ++ String.intercalate (", ") (params_sql metadata).reverse
  ++ ") RETURNS " ++ type_to_sql metadata.return_type ++ " AS $$\n"
  ++ "DECLARE\n"
  ++ "    result_json json;\n"
  ++ "    input_param json;\n"
  ++ "BEGIN\n"
  ++ "    -- Construct JSON object from parameters\n"
  ++ "    input_param := json_build_object(\n"
  ++ String.intercalate (",\n") (json_params metadata)
  ++ "\n\t);\n"
  ++ "    -- Call the extism_define function using the provided parameters\n"
  ++ "    SELECT extism_call('" ++ path ++ "', '" ++ metadata.entry_point
  ++ "', input_param) INTO result_json;\n"
  ++ "    -- Return the desired field from the result JSON\n"
  ++ "    RETURN (result_json->>'" ++ metadata.return_field ++ "')::"
  ++ type_to_sql metadata.return_type ++ ";\n"
  ++ "EXCEPTION\n"
  ++ "    WHEN others THEN\n"
  ++ "        -- Handle exceptions if necessary\n"
  ++ "        RAISE NOTICE 'An error occurred: %', SQLERRM;\n"
  ++ "        RETURN NULL;\n"
  ++ "END;\n"
  ++ "$$ LANGUAGE plpgsql;"

/-- A JSON value (embeds `serde_json::Value` / `pgx::Json` as far as the
bridge inspects it, which is not at all: the bridge only passes values
through). -/
inductive JsonVal
  | null
  | bool (b : Bool)
  | num (n : Int)
  | str (s : String)
  | arr (elems : List JsonVal)
  | obj (fields : List (String × JsonVal))

/-- Embeds the extism `Manifest` built inside `fn new_plugin`: module
source, memory ceiling, network host allow-list, filesystem path
allow-list, config (secret) keys and values, timeout, WASI flag. -/
structure Manifest where
  wasm_file : String
  memory_max_pages : Option Nat
  allowed_hosts : List String
  allowed_paths : List (String × String)
  config : List (String × String)
  timeout_secs : Nat
  wasi : Bool
deriving DecidableEq

/-- The manifest `fn new_plugin` constructs before calling
`Plugin::new_with_manifest`.  As in the source, it is a function of the
plugin path alone; every other field is a constant of the bridge. -/
def new_plugin_manifest (path : String) : Manifest :=
  { wasm_file := path
    memory_max_pages := some 5
    allowed_hosts := ["api.openai.com"]
    allowed_paths := [("/", "/")]
    config := [("openai_apikey", "")]
    timeout_secs := 10
    wasi := true }

/-- The manifest built by the `new_plugin` call inside `extism_call`,
expressed as a function of `extism_call`'s `path` and `input` arguments.
In the source `new_plugin` receives only the context and `path`, so the
caller-supplied JSON `input` cannot flow into the manifest. -/
def extism_call_manifest (path : String) (_input : JsonVal) : Manifest :=
  new_plugin_manifest path

/-- A loaded plugin handle, abstracting `extism::Plugin`: membership test
for exported functions and a byte-returning fallible call. -/
structure PluginIface where
  has_function : String → Bool
  call : String → String → Except String (List Nat)

/-- External collaborators of the bridge, abstracted as fallible
functions: the extism loader (`Plugin::new_with_manifest`), serde_json
serialization of a `Json` argument (`serde_json::to_string`, total on
JSON values), `std::str::from_utf8`, `serde_json::from_str`, and
`serde_json::from_slice::<PluginMetadata>`. -/
structure SandboxRuntime where
  load : Manifest → Except String PluginIface
  encode : JsonVal → String
  decodeUtf8 : List Nat → Except String String
  parseJson : String → Except String JsonVal
  parseMetadata : List Nat → Except String PluginMetadata

/-- Observable outcome of a bridge entry point: a returned value, a pgx
`error!` (a controlled PostgreSQL error carrying a message), or a Rust
`unwrap` panic (an uncontrolled panic with no bridge-chosen message). -/
inductive Outcome (α : Type)
  | ok : α → Outcome α
  | pgError : String → Outcome α
  | panicked : Outcome α

/-- Embeds `fn extism_call`: encode the input (total), load via
`new_plugin` (whose `unwrap` turns a load failure into a panic), call the
entry point (`error!` with a distinguishing message on failure), decode
UTF-8 (`error!` with a distinguishing message on failure), then parse
JSON (`unwrap`: panic on failure). -/
def extism_call (rt : SandboxRuntime) (path name : String) (input : JsonVal) :
    Outcome JsonVal :=
  let json_string := rt.encode input
  match rt.load (new_plugin_manifest path) with
  | .error _ => .panicked
  | .ok plugin =>
    match plugin.call name json_string with
    | .error e => .pgError ("Error while calling plugin: " ++ e)
    | .ok data =>
      match rt.decodeUtf8 data with
      | .error e => .pgError ("Invalid UTF-8 sequence: " ++ e)
      | .ok output =>
        match rt.parseJson output with
        | .error _ => .panicked
        | .ok response_json => .ok response_json

/-- Embeds `fn extism_define`: load via `new_plugin` (panic on load
failure), require an exported `metadata` function, call it with empty
input, deserialize the returned bytes, then synthesize the SQL.  An
`.ok sql` result models reaching `Spi::run(&sql)`, i.e. exactly `sql`
being run against the database catalog; every other outcome runs no
statement. -/
def extism_define (rt : SandboxRuntime) (path name : String) : Outcome String :=
  match rt.load (new_plugin_manifest path) with
  | .error _ => .panicked
  | .ok plugin =>
    if plugin.has_function ("metadata") then
      match plugin.call ("metadata") ("") with
      | .error err => .pgError ("Failed to call metadata function: " ++ err)
      | .ok metadata_json =>
        match rt.parseMetadata metadata_json with
        | .error err => .pgError ("Failed to deserialize metadata: " ++ err)
        | .ok metadata => .ok (generate_dynamic_function path name metadata)
    else
      .pgError ("Expected a `metadata` function.")

/-- Modelled from the spec: the database engine's function catalog, which
the bridge consumes only through "create/replace a callable function"
(spec section 1); the catalog maps an exposed name to the installed
definition text. -/
abbrev Catalog := String → Option String

/-- Modelled from the spec: running a create-or-replace statement for
`name` against the catalog installs `defn` under `name`, replacing any
prior definition under that name. -/
def catalog_install (cat : Catalog) (name defn : String) : Catalog :=
  fun n => if n = name then some defn else cat n

/-- Boolean test that `needle` is a leading segment of `hay`. -/
def startsWithSeg : List Char → List Char → Bool
  | [], _ => true
  | _ :: _, [] => false
  | a :: as, b :: bs => a == b && startsWithSeg as bs

/-- Boolean test that `needle` occurs contiguously somewhere in `hay`. -/
def hasSeg (needle : List Char) : List Char → Bool
  | [] => startsWithSeg needle []
  | b :: bs => startsWithSeg needle (b :: bs) || hasSeg needle bs

/-- A small well-formed metadata value with two parameters, used to
instantiate hypotheses of the universally quantified theorems. -/
def md_two : PluginMetadata :=
  { entry_point := "run"
    parameters := [("alpha", ValueType.Number), ("beta", ValueType.String)]
    return_type := ValueType.Json
    return_field := "out" }

/-- A metadata value the spec's resolver would have to reject: empty
entry point and a parameter name that is not a valid identifier. -/
def md_invalid : PluginMetadata :=
  { entry_point := ""
    parameters := [("bad name!", ValueType.String)]
    return_type := ValueType.String
    return_field := "out" }

/-- A metadata value whose entry point, parameter name and return field
each contain a single-quote character. -/
def md_quote : PluginMetadata :=
  { entry_point := "e'p"
    parameters := [("a'b", ValueType.String)]
    return_type := ValueType.String
    return_field := "r'f" }

/-- A plugin exporting only a `metadata` function, whose calls return
empty byte output. -/
def plugin_meta_only : PluginIface :=
  { has_function := fun f => f == "metadata"
    call := fun _ _ => .ok [] }

/-- A plugin exporting no functions at all. -/
def plugin_bare : PluginIface :=
  { has_function := fun _ => false
    call := fun _ _ => .error ("missing") }

/-- A plugin whose every call traps. -/
def plugin_trap : PluginIface :=
  { has_function := fun _ => true
    call := fun _ _ => .error ("trap") }

/-- A plugin whose every call succeeds with empty byte output. -/
def plugin_ok : PluginIface :=
  { has_function := fun _ => true
    call := fun _ _ => .ok [] }

/-- A runtime that loads `plugin_meta_only` and deserializes any bytes to
`md_invalid`. -/
def rt_invalid : SandboxRuntime :=
  { load := fun _ => .ok plugin_meta_only
    encode := fun _ => ""
    decodeUtf8 := fun _ => .ok ("")
    parseJson := fun _ => .error ("")
    parseMetadata := fun _ => .ok md_invalid }

/-- A runtime that loads `plugin_bare`. -/
def rt_bare : SandboxRuntime :=
  { load := fun _ => .ok plugin_bare
    encode := fun _ => ""
    decodeUtf8 := fun _ => .ok ("")
    parseJson := fun _ => .error ("")
    parseMetadata := fun _ => .error ("") }

/-- A runtime whose loaded plugin succeeds but whose JSON parse of the
returned text fails. -/
def rt_badjson : SandboxRuntime :=
  { load := fun _ => .ok plugin_ok
    encode := fun _ => ""
    decodeUtf8 := fun _ => .ok ("not json")
    parseJson := fun _ => .error ("parse fail")
    parseMetadata := fun _ => .error ("") }

/-- A runtime whose loaded plugin traps on every call. -/
def rt_trap : SandboxRuntime :=
  { load := fun _ => .ok plugin_trap
    encode := fun _ => ""
    decodeUtf8 := fun _ => .ok ("")
    parseJson := fun _ => .error ("")
    parseMetadata := fun _ => .error ("") }

/-- C1: for every valid PluginMetadata whose parameters map contains N
uniquely-named parameters, generate_dynamic_function emits a definition
whose signature declares exactly N parameters (the reversed `params_sql`
list joined into the signature), each parameter appearing exactly once,
and whose body's json_build_object argument list contains every one of
those N parameter names as a key under its declared name, regardless of
the positional order of the signature. -/
theorem c1_signature_and_body_params (md : PluginMetadata)
    (h : (md.parameters.map Prod.fst).Nodup) :
    (params_sql md).reverse.length = md.parameters.length
    ∧ (params_sql md).reverse =
        md.parameters.reverse.map (fun p => p.1 ++ " " ++ type_to_sql p.2)
    ∧ (md.parameters.reverse.map Prod.fst).Nodup
    ∧ (∀ p ∈ md.parameters, ("\t'" ++ p.1 ++ "', " ++ p.1) ∈ json_params md) := by
  refine ⟨by simp [params_sql], by simp [params_sql, List.map_reverse], ?_, ?_⟩
  · rw [List.map_reverse]
    exact List.nodup_reverse.mpr h
  · intro p hp
    simp only [json_params]
    exact List.mem_map_of_mem _ hp

/-- Witness for C1 at the concrete two-parameter metadata `md_two`. -/
theorem c1_witness :
    (md_two.parameters.map Prod.fst).Nodup
    ∧ (params_sql md_two).reverse.length = md_two.parameters.length :=
  ⟨by decide, (c1_signature_and_body_params md_two (by decide)).1⟩

/-- C10: for every PluginMetadata (whose embedded parameter list carries
the BTreeMap invariant: keys ascending in byte-wise lexicographic order),
the emitted signature enumerates the parameter entries in exactly the
reverse of ascending lexicographic order of the names, while the key list
of the body's json_build_object enumerates the same names in ascending
lexicographic order; both lists contain exactly the declared names. -/
theorem c10_signature_descending_body_ascending (md : PluginMetadata)
    (h : List.Sorted (fun a b : String => a.data < b.data)
      (md.parameters.map Prod.fst)) :
    (params_sql md).reverse =
        md.parameters.reverse.map (fun p => p.1 ++ " " ++ type_to_sql p.2)
    ∧ md.parameters.reverse.map Prod.fst = (md.parameters.map Prod.fst).reverse
    ∧ List.Sorted (fun a b : String => b.data < a.data)
        (md.parameters.reverse.map Prod.fst)
    ∧ List.Sorted (fun a b : String => a.data < b.data)
        (md.parameters.map Prod.fst)
    ∧ json_params md = md.parameters.map (fun p => "\t'" ++ p.1 ++ "', " ++ p.1)
    ∧ (md.parameters.reverse.map Prod.fst).Perm (md.parameters.map Prod.fst) := by
  refine ⟨by simp [params_sql, List.map_reverse], by simp [List.map_reverse], ?_, h, rfl, ?_⟩
  · rw [List.map_reverse]
    exact List.pairwise_reverse.mpr h
  · rw [List.map_reverse]
    exact List.reverse_perm _

/-- Witness for C10 at the concrete sorted metadata `md_two`. -/
theorem c10_witness :
    List.Sorted (fun a b : String => a.data < b.data)
      (md_two.parameters.map Prod.fst)
    ∧ List.Sorted (fun a b : String => b.data < a.data)
      (md_two.parameters.reverse.map Prod.fst) :=
  ⟨by decide, (c10_signature_descending_body_ascending md_two (by decide)).2.2.1⟩

/-- C4: for every PluginMetadata, path and exposed name, the emitted body
(1) builds a single JSON object from the parameters keyed by parameter
name, (2) invokes extism_call with exactly (path, entry_point, that
object), (3) extracts the key return_field from the result, and (4) casts
the extracted value to the column type mapped from return_type, which is
also the definition's declared return type. -/
theorem c4_body_steps (path name : String) (md : PluginMetadata) :
    (∃ pre mid1 mid2 post : String,
      generate_dynamic_function path name md =
        pre
        ++ ("    input_param := json_build_object(\n"
            ++ String.intercalate (",\n") (json_params md) ++ "\n\t);\n")
        ++ mid1
        ++ ("    SELECT extism_call('" ++ path ++ "', '" ++ md.entry_point
            ++ "', input_param) INTO result_json;\n")
        ++ mid2
        ++ ("    RETURN (result_json->>'" ++ md.return_field ++ "')::"
            ++ type_to_sql md.return_type ++ ";\n")
        ++ post)
    ∧ (∃ pre2 post2 : String,
        generate_dynamic_function path name md =
          pre2 ++ (") RETURNS " ++ type_to_sql md.return_type ++ " AS $$\n") ++ post2)
    ∧ json_params md = md.parameters.map (fun p => "\t'" ++ p.1 ++ "', " ++ p.1) := by
  refine ⟨⟨"CREATE OR REPLACE FUNCTION " ++ name ++ "("
      ++ String.intercalate (", ") (params_sql md).reverse
      ++ ") RETURNS " ++ type_to_sql md.return_type ++ " AS $$\n"
      ++ "DECLARE\n"
      ++ "    result_json json;\n"
      ++ "    input_param json;\n"
      ++ "BEGIN\n"
      ++ "    -- Construct JSON object from parameters\n",
    "    -- Call the extism_define function using the provided parameters\n",
    "    -- Return the desired field from the result JSON\n",
    "EXCEPTION\n"
      ++ "    WHEN others THEN\n"
      ++ "        -- Handle exceptions if necessary\n"
      ++ "        RAISE NOTICE 'An error occurred: %', SQLERRM;\n"
      ++ "        RETURN NULL;\n"
      ++ "END;\n"
      ++ "$$ LANGUAGE plpgsql;", ?_⟩,
    ⟨"CREATE OR REPLACE FUNCTION " ++ name ++ "("
      ++ String.intercalate (", ") (params_sql md).reverse,
    "DECLARE\n"
      ++ "    result_json json;\n"
      ++ "    input_param json;\n"
      ++ "BEGIN\n"
      ++ "    -- Construct JSON object from parameters\n"
      ++ "    input_param := json_build_object(\n"
      ++ String.intercalate (",\n") (json_params md)
      ++ "\n\t);\n"
      ++ "    -- Call the extism_define function using the provided parameters\n"
      ++ "    SELECT extism_call('" ++ path ++ "', '" ++ md.entry_point
      ++ "', input_param) INTO result_json;\n"
      ++ "    -- Return the desired field from the result JSON\n"
      ++ "    RETURN (result_json->>'" ++ md.return_field ++ "')::"
      ++ type_to_sql md.return_type ++ ";\n"
      ++ "EXCEPTION\n"
      ++ "    WHEN others THEN\n"
      ++ "        -- Handle exceptions if necessary\n"
      ++ "        RAISE NOTICE 'An error occurred: %', SQLERRM;\n"
      ++ "        RETURN NULL;\n"
      ++ "END;\n"
      ++ "$$ LANGUAGE plpgsql;", ?_⟩, rfl⟩
  · simp only [generate_dynamic_function, String.append_assoc]
  · simp only [generate_dynamic_function, String.append_assoc]

/-- C5: for every PluginMetadata, path and exposed name, the emitted
definition ends with an exception handler that catches all exceptions
(`WHEN others`), records the failure only as a diagnostic
(`RAISE NOTICE`), and returns NULL instead of propagating the failure. -/
theorem c5_exception_handler (path name : String) (md : PluginMetadata) :
    ∃ pre : String,
      generate_dynamic_function path name md =
        pre ++ ("EXCEPTION\n"
          ++ "    WHEN others THEN\n"
          ++ "        -- Handle exceptions if necessary\n"
          ++ "        RAISE NOTICE 'An error occurred: %', SQLERRM;\n"
          ++ "        RETURN NULL;\n"
          ++ "END;\n"
          ++ "$$ LANGUAGE plpgsql;") := by
  refine ⟨"CREATE OR REPLACE FUNCTION " ++ name ++ "("
    ++ String.intercalate (", ") (params_sql md).reverse
    ++ ") RETURNS " ++ type_to_sql md.return_type ++ " AS $$\n"
    ++ "DECLARE\n"
    ++ "    result_json json;\n"
    ++ "    input_param json;\n"
    ++ "BEGIN\n"
    ++ "    -- Construct JSON object from parameters\n"
    ++ "    input_param := json_build_object(\n"
    ++ String.intercalate (",\n") (json_params md)
    ++ "\n\t);\n"
    ++ "    -- Call the extism_define function using the provided parameters\n"
    ++ "    SELECT extism_call('" ++ path ++ "', '" ++ md.entry_point
    ++ "', input_param) INTO result_json;\n"
    ++ "    -- Return the desired field from the result JSON\n"
    ++ "    RETURN (result_json->>'" ++ md.return_field ++ "')::"
    ++ type_to_sql md.return_type ++ ";\n", ?_⟩
  simp only [generate_dynamic_function, String.append_assoc]

/-- C8: the definition emitted by generate_dynamic_function is a
create-or-replace statement for the exposed name, and installing under
the same name twice (with the same or different definitions) in the
spec's catalog model replaces the prior definition rather than
duplicating it, leaving only the second definition callable. -/
theorem c8_create_or_replace_upsert (path name : String) (md : PluginMetadata)
    (cat : Catalog) (d1 d2 : String) :
    (∃ rest : String,
      generate_dynamic_function path name md =
        "CREATE OR REPLACE FUNCTION " ++ name ++ "(" ++ rest)
    ∧ catalog_install (catalog_install cat name d1) name d2 = catalog_install cat name d2
    ∧ catalog_install (catalog_install cat name d1) name d2 name = some d2 := by
  refine ⟨⟨String.intercalate (", ") (params_sql md).reverse
    ++ ") RETURNS " ++ type_to_sql md.return_type ++ " AS $$\n"
    ++ "DECLARE\n"
    ++ "    result_json json;\n"
    ++ "    input_param json;\n"
    ++ "BEGIN\n"
    ++ "    -- Construct JSON object from parameters\n"
    ++ "    input_param := json_build_object(\n"
    ++ String.intercalate (",\n") (json_params md)
    ++ "\n\t);\n"
    ++ "    -- Call the extism_define function using the provided parameters\n"
    ++ "    SELECT extism_call('" ++ path ++ "', '" ++ md.entry_point
    ++ "', input_param) INTO result_json;\n"
    ++ "    -- Return the desired field from the result JSON\n"
    ++ "    RETURN (result_json->>'" ++ md.return_field ++ "')::"
    ++ type_to_sql md.return_type ++ ";\n"
    ++ "EXCEPTION\n"
    ++ "    WHEN others THEN\n"
    ++ "        -- Handle exceptions if necessary\n"
    ++ "        RAISE NOTICE 'An error occurred: %', SQLERRM;\n"
    ++ "        RETURN NULL;\n"
    ++ "END;\n"
    ++ "$$ LANGUAGE plpgsql;", ?_⟩, ?_, ?_⟩
  · simp only [generate_dynamic_function, String.append_assoc]
  · funext n
    by_cases hn : n = name <;> simp [catalog_install, hn]
  · simp [catalog_install]

set_option maxRecDepth 100000 in
/-- C9: generate_dynamic_function interpolates the exposed name, the
path, entry_point, return_field and every parameter name into the emitted
SQL text character-for-character, with no quoting, escaping or identifier
validation; consequently for the concrete metadata `md_quote`, whose
entry point, parameter name and return field each contain a single quote,
those quotes appear verbatim inside the generated definition. -/
theorem c9_verbatim_interpolation :
    (∀ (path name : String) (md : PluginMetadata),
      ∃ pre mid post : String,
        generate_dynamic_function path name md =
          pre
          ++ ("    SELECT extism_call('" ++ path ++ "', '" ++ md.entry_point
              ++ "', input_param) INTO result_json;\n")
          ++ mid
          ++ ("    RETURN (result_json->>'" ++ md.return_field ++ "')::"
              ++ type_to_sql md.return_type ++ ";\n")
          ++ post)
    ∧ (∀ (path name : String) (md : PluginMetadata),
        ∃ rest : String,
          generate_dynamic_function path name md =
            "CREATE OR REPLACE FUNCTION " ++ name ++ "(" ++ rest)
    ∧ (∀ md : PluginMetadata,
        json_params md = md.parameters.map (fun p => "\t'" ++ p.1 ++ "', " ++ p.1))
    ∧ (∀ md : PluginMetadata,
        params_sql md = md.parameters.map (fun p => p.1 ++ " " ++ type_to_sql p.2))
    ∧ hasSeg (("a'b").data) ((generate_dynamic_function ("p.wasm") ("fn") md_quote).data) = true
    ∧ hasSeg (("e'p").data) ((generate_dynamic_function ("p.wasm") ("fn") md_quote).data) = true
    ∧ hasSeg (("r'f").data) ((generate_dynamic_function ("p.wasm") ("fn") md_quote).data) = true := by
  refine ⟨?_, ?_, fun _ => rfl, fun _ => rfl, by decide, by decide, by decide⟩
  · intro path name md
    refine ⟨"CREATE OR REPLACE FUNCTION " ++ name ++ "("
      ++ String.intercalate (", ") (params_sql md).reverse
      ++ ") RETURNS " ++ type_to_sql md.return_type ++ " AS $$\n"
      ++ "DECLARE\n"
      ++ "    result_json json;\n"
      ++ "    input_param json;\n"
      ++ "BEGIN\n"
      ++ "    -- Construct JSON object from parameters\n"
      ++ "    input_param := json_build_object(\n"
      ++ String.intercalate (",\n") (json_params md)
      ++ "\n\t);\n"
      ++ "    -- Call the extism_define function using the provided parameters\n",
      "    -- Return the desired field from the result JSON\n",
      "EXCEPTION\n"
      ++ "    WHEN others THEN\n"
      ++ "        -- Handle exceptions if necessary\n"
      ++ "        RAISE NOTICE 'An error occurred: %', SQLERRM;\n"
      ++ "        RETURN NULL;\n"
      ++ "END;\n"
      ++ "$$ LANGUAGE plpgsql;", ?_⟩
    simp only [generate_dynamic_function, String.append_assoc]
  · intro path name md
    refine ⟨String.intercalate (", ") (params_sql md).reverse
      ++ ") RETURNS " ++ type_to_sql md.return_type ++ " AS $$\n"
      ++ "DECLARE\n"
      ++ "    result_json json;\n"
      ++ "    input_param json;\n"
      ++ "BEGIN\n"
      ++ "    -- Construct JSON object from parameters\n"
      ++ "    input_param := json_build_object(\n"
      ++ String.intercalate (",\n") (json_params md)
      ++ "\n\t);\n"
      ++ "    -- Call the extism_define function using the provided parameters\n"
      ++ "    SELECT extism_call('" ++ path ++ "', '" ++ md.entry_point
      ++ "', input_param) INTO result_json;\n"
      ++ "    -- Return the desired field from the result JSON\n"
      ++ "    RETURN (result_json->>'" ++ md.return_field ++ "')::"
      ++ type_to_sql md.return_type ++ ";\n"
      ++ "EXCEPTION\n"
      ++ "    WHEN others THEN\n"
      ++ "        -- Handle exceptions if necessary\n"
      ++ "        RAISE NOTICE 'An error occurred: %', SQLERRM;\n"
      ++ "        RETURN NULL;\n"
      ++ "END;\n"
      ++ "$$ LANGUAGE plpgsql;", ?_⟩
    simp only [generate_dynamic_function, String.append_assoc]

/-- C7: the sandbox configuration used for an invocation is determined
entirely at load time from the plugin locator and the bridge's fixed
constants; for any two invocations of extism_call with the same path but
different caller-supplied JSON arguments the manifest built by new_plugin
is identical, and no part of it — including the secret config values —
is derived from caller-supplied arguments. -/
theorem c7_manifest_input_independent (path : String) (input input' : JsonVal) :
    extism_call_manifest path input = extism_call_manifest path input'
    ∧ extism_call_manifest path input =
      { wasm_file := path
        memory_max_pages := some 5
        allowed_hosts := ["api.openai.com"]
        allowed_paths := [("/", "/")]
        config := [("openai_apikey", "")]
        timeout_secs := 10
        wasi := true }
    ∧ (extism_call_manifest path input).config = [("openai_apikey", "")] :=
  ⟨rfl, rfl, rfl⟩

/-- C2 counterexample: a plugin whose metadata deserializes to
`md_invalid` — empty entry point (hence also not exported on the handle)
and a parameter name that is not a valid identifier — still reaches
synthesis: registration succeeds instead of failing with
MissingEntryPoint or InvalidIdentifier, so no such validation exists. -/
theorem c2_counterexample :
    extism_define rt_invalid ("plugin.wasm") ("fn") =
      Outcome.ok (generate_dynamic_function ("plugin.wasm") ("fn") md_invalid)
    ∧ md_invalid.entry_point = ""
    ∧ plugin_meta_only.has_function (md_invalid.entry_point) = false :=
  ⟨rfl, rfl, rfl⟩

/-- C2 (amended): after the plugin's metadata is parsed, the resolver
performs no further validation: any metadata that deserializes
successfully reaches synthesis unconditionally, regardless of whether
entry_point is empty or exported and regardless of the parameter names.
The only registration checks are the presence of the `metadata` export,
the success of its call, and deserialization of the returned bytes. -/
theorem c2_no_validation_after_parse (rt : SandboxRuntime) (plugin : PluginIface)
    (path name : String) (bytes : List Nat) (md : PluginMetadata)
    (hload : rt.load (new_plugin_manifest path) = .ok plugin)
    (hmeta : plugin.has_function ("metadata") = true)
    (hcall : plugin.call ("metadata") ("") = .ok bytes)
    (hparse : rt.parseMetadata bytes = .ok md) :
    extism_define rt path name =
      Outcome.ok (generate_dynamic_function path name md) := by
  simp [extism_define, hload, hmeta, hcall, hparse]

/-- Witness for the amended C2 at the concrete runtime `rt_invalid`. -/
theorem c2_witness :
    extism_define rt_invalid ("p.wasm") ("f") =
      Outcome.ok (generate_dynamic_function ("p.wasm") ("f") md_invalid) :=
  c2_no_validation_after_parse rt_invalid plugin_meta_only ("p.wasm") ("f")
    [] md_invalid rfl rfl rfl rfl

/-- C3: extism_define fails with a descriptive hard error — and reaches
no `Spi::run`, so no statement is run against the catalog — when the
plugin lacks an exported `metadata` function, when the `metadata` call
fails, or when the returned bytes do not deserialize; an `.ok` result
(the only outcome that runs a statement) is possible only after all three
checks pass, and the statement it runs is the synthesized definition. -/
theorem c3_registration_hard_errors (rt : SandboxRuntime) (plugin : PluginIface)
    (path name : String)
    (hload : rt.load (new_plugin_manifest path) = .ok plugin) :
    (plugin.has_function ("metadata") = false →
      extism_define rt path name = .pgError ("Expected a `metadata` function."))
    ∧ (∀ e, plugin.has_function ("metadata") = true →
        plugin.call ("metadata") ("") = .error e →
        extism_define rt path name =
          .pgError ("Failed to call metadata function: " ++ e))
    ∧ (∀ bytes e, plugin.has_function ("metadata") = true →
        plugin.call ("metadata") ("") = .ok bytes →
        rt.parseMetadata bytes = .error e →
        extism_define rt path name =
          .pgError ("Failed to deserialize metadata: " ++ e))
    ∧ (∀ sql, extism_define rt path name = .ok sql →
        ∃ bytes md, plugin.has_function ("metadata") = true
          ∧ plugin.call ("metadata") ("") = .ok bytes
          ∧ rt.parseMetadata bytes = .ok md
          ∧ sql = generate_dynamic_function path name md) := by
  refine ⟨?_, ?_, ?_, ?_⟩
  · intro hm
    simp [extism_define, hload, hm]
  · intro e hm hc
    simp [extism_define, hload, hm, hc]
  · intro bytes e hm hc hp
    simp [extism_define, hload, hm, hc, hp]
  · intro sql hsql
    cases hm : plugin.has_function ("metadata") with
    | false =>
      have hdef : extism_define rt path name =
          .pgError ("Expected a `metadata` function.") := by
        simp [extism_define, hload, hm]
      rw [hdef] at hsql
      exact Outcome.noConfusion hsql
    | true =>
      cases hc : plugin.call ("metadata") ("") with
      | error e =>
        have hdef : extism_define rt path name =
            .pgError ("Failed to call metadata function: " ++ e) := by
          simp [extism_define, hload, hm, hc]
        rw [hdef] at hsql
        exact Outcome.noConfusion hsql
      | ok bytes =>
        cases hp : rt.parseMetadata bytes with
        | error e =>
          have hdef : extism_define rt path name =
              .pgError ("Failed to deserialize metadata: " ++ e) := by
            simp [extism_define, hload, hm, hc, hp]
          rw [hdef] at hsql
          exact Outcome.noConfusion hsql
        | ok md =>
          have hdef : extism_define rt path name =
              .ok (generate_dynamic_function path name md) := by
            simp [extism_define, hload, hm, hc, hp]
          rw [hdef] at hsql
          injection hsql with h
          exact ⟨bytes, md, rfl, rfl, hp, h.symm⟩

/-- Witness for C3 at the concrete runtime `rt_bare`, whose plugin has no
`metadata` export. -/
theorem c3_witness :
    extism_define rt_bare ("p.wasm") ("f") =
      Outcome.pgError ("Expected a `metadata` function.") :=
  (c3_registration_hard_errors rt_bare plugin_bare ("p.wasm") ("f") rfl).1 rfl

/-- C6 counterexample: with the runtime `rt_badjson` every stage up to
JSON parsing succeeds and the JSON parse fails, yet extism_call ends in
an uncontrolled unwrap panic rather than an error result carrying a
distinguishing kind. -/
theorem c6_counterexample :
    extism_call rt_badjson ("p.wasm") ("run") JsonVal.null = Outcome.panicked
    ∧ rt_badjson.parseJson ("not json") = .error ("parse fail") :=
  ⟨rfl, rfl⟩

/-- C6 (amended): of the four stages of extism_call, only the entry-point
call and the UTF-8 decode yield on failure a controlled error with a
message distinguishing the stage; a load failure and a JSON-parse
failure instead hit a Rust `unwrap` and end in an uncontrolled panic. -/
theorem c6_stage_failures (rt : SandboxRuntime) (plugin : PluginIface)
    (path name : String) (input : JsonVal) :
    ((∃ e, rt.load (new_plugin_manifest path) = .error e) →
      extism_call rt path name input = Outcome.panicked)
    ∧ (∀ e, rt.load (new_plugin_manifest path) = .ok plugin →
        plugin.call name (rt.encode input) = .error e →
        extism_call rt path name input =
          .pgError ("Error while calling plugin: " ++ e))
    ∧ (∀ data e, rt.load (new_plugin_manifest path) = .ok plugin →
        plugin.call name (rt.encode input) = .ok data →
        rt.decodeUtf8 data = .error e →
        extism_call rt path name input =
          .pgError ("Invalid UTF-8 sequence: " ++ e))
    ∧ (∀ data output e, rt.load (new_plugin_manifest path) = .ok plugin →
        plugin.call name (rt.encode input) = .ok data →
        rt.decodeUtf8 data = .ok output →
        rt.parseJson output = .error e →
        extism_call rt path name input = Outcome.panicked) := by
  refine ⟨?_, ?_, ?_, ?_⟩
  · intro ⟨e, he⟩
    simp [extism_call, he]
  · intro e hl hc
    simp [extism_call, hl, hc]
  · intro data e hl hc hd
    simp [extism_call, hl, hc, hd]
  · intro data output e hl hc hd hp
    simp [extism_call, hl, hc, hd, hp]

/-- Witness for the amended C6 at the concrete runtime `rt_trap`, whose
plugin traps on every call. -/
theorem c6_witness :
    extism_call rt_trap ("p.wasm") ("run") JsonVal.null =
      Outcome.pgError ("Error while calling plugin: " ++ "trap") :=
  (c6_stage_failures rt_trap plugin_trap ("p.wasm") ("run") JsonVal.null).2.1
    ("trap") rfl rfl
